import Mathlib

/-!
# Verification of the mindsdb_sql SELECT planner and parser specification

This file embeds the data model of the mindsdb_sql repository (AST nodes,
planning steps, the query planner and the clause-structure of the SELECT
parser) in Lean 4 and proves the quantified properties stated in the
specification against that embedding.

The repository snapshot ships its test suite (tests/test_planner/*,
tests/test_parser/*) and two small AST modules, but not the planner or
parser implementation files themselves.  The embedding below therefore
models the missing implementation from the specification, with every
behaviour that the in-repository test fixtures pin down reproduced
exactly as the fixtures show it (the fixtures construct the expected
plans and ASTs node by node, so they determine the implementation's
observable output on those inputs).
-/

namespace MindsdbSql

/-- Constant values carried by `Constant` AST nodes: integer, rational
(covering the float literals appearing in the tests), string, boolean and
NULL.  `Constant('$var')` placeholders of map-reduce templates are plain
string values. -/
inductive CValue where
  | int (n : Int)
  | flt (q : Rat)
  | str (s : String)
  | bool (b : Bool)
  | null
deriving DecidableEq, Repr

/-- Expression AST nodes.  `ident` mirrors `Identifier(parts, alias)` (the
alias, an `Identifier` with a single segment in every fixture, is kept as
an optional string).  `binop` mirrors `BinaryOperation(op, args)` together
with its `parentheses` flag; `between` mirrors `BetweenOperation`;
`latest` is the mindsdb `Latest()` sentinel.  The embedding covers the
expression constructors that the planner rules and the fixtures
manipulate; `Function`, `Tuple`, `TypeCast` and subqueries do not occur in
any claim. -/
inductive Expr where
  | ident (parts : List String) (als : Option String)
  | const (v : CValue)
  | star
  | latest
  | binop (op : String) (parens : Bool) (a b : Expr)
  | between (x lo hi : Expr)
deriving DecidableEq, Repr

/-- `BinaryOperation` with the default `parentheses=False`. -/
def bop (op : String) (a b : Expr) : Expr := Expr.binop op false a b

/-- `OrderBy(field, direction, nulls)`; `direction` defaults to
`'default'`. -/
structure OrderByItem where
  field : Expr
  direction : String := "default"
  nulls : String := "default"
deriving DecidableEq, Repr

/-- `Join(left, right, join_type, condition, implicit)`.  `join_type` is
the string from `JoinType` (or `none` for the bare implicit comma join). -/
structure JoinNode where
  left : Expr
  right : Expr
  join_type : Option String := none
  condition : Option Expr := none
  implicit : Bool := false
deriving DecidableEq, Repr

/-- The FROM clause payload: a plain table identifier or a join.  Subquery
FROM sources are outside the fragment the claims exercise. -/
inductive FromTable where
  | table (t : Expr)
  | joined (j : JoinNode)
deriving DecidableEq, Repr

/-- The `Select` AST node restricted to the attributes the claims touch. -/
structure SelectQ where
  targets : List Expr
  from_table : Option FromTable := none
  whereCond : Option Expr := none
  group_by : Option (List Expr) := none
  having : Option Expr := none
  order_by : Option (List OrderByItem) := none
  limit : Option Expr := none
  offset : Option Expr := none
  distinct : Bool := false
deriving DecidableEq, Repr

/-- `JoinType` constants from `mindsdb_sql.utils`. -/
def JoinType.join : String := "join"

def JoinType.inner_join : String := "inner join"

def JoinType.left_join : String := "left join"

/-- A fetch-step record: `FetchDataframeStep(integration, query)`.  It is
split out as a structure because map-reduce templates hold fetch steps. -/
structure FetchT where
  integration : String
  query : SelectQ
deriving DecidableEq, Repr

/-- The template of a `MapReduceStep`: either a single
`FetchDataframeStep` or a `MultipleSteps(reduce, steps)` whose members
are fetch steps — the only two template shapes the planner emits. -/
inductive TsTemplate where
  | single (s : FetchT)
  | multi (reduce : String) (steps : List FetchT)
deriving DecidableEq, Repr

/-- Planning steps.  `Result(i)` handles are bare natural numbers (the
index of the producing step). -/
inductive Step where
  | fetchDataframe (integration : String) (query : SelectQ)
  | applyPredictor (namespc : String) (predictor : Expr) (dataframe : Nat)
  | applyPredictorRow (namespc : String) (predictor : Expr)
      (row : List (String × CValue))
  | applyTimeseriesPredictor (namespc : String) (predictor : Expr)
      (dataframe : Nat) (output_time_filter : Option Expr)
  | joinStep (left : Nat) (right : Nat) (query : JoinNode)
  | filterStep (dataframe : Nat) (query : Expr)
  | projectStep (dataframe : Nat) (columns : List Expr)
  | groupByStep (dataframe : Nat) (targets : List Expr) (columns : List Expr)
  | orderByStep (dataframe : Nat) (order_by : List OrderByItem)
  | limitOffsetStep (dataframe : Nat) (limit : Option Expr) (offset : Option Expr)
  | mapReduceStep (values : Nat) (reduce : String) (template : TsTemplate)
deriving DecidableEq, Repr

/-- Per-predictor metadata handed to `plan_query`. -/
structure PredMeta where
  timeseries : Bool
  order_by_column : String := ""
  group_by_column : String := ""
  window : Nat := 0
deriving DecidableEq, Repr

/-- A query plan: the ordered steps (plus the declared default
namespace, which the fixtures carry but never compare beyond steps). -/
structure QueryPlan where
  steps : List Step
  default_namespace : Option String := none
deriving DecidableEq, Repr

/-! ## Planner helper functions

Modelled from the spec (§4.3–§4.6): the planner implementation file is
not part of the snapshot; each helper reproduces the behaviour the
specification describes, specialised to the output shapes the
test-fixture plans in `tests/test_planner/` exhibit. -/

/-- Modelled from the spec: attribution of a table identifier to an
integration (§4.3).  The leading segment is matched case-sensitively
against the integration names; failing that, the whole identifier is
attributed to the default namespace when that names an integration.
Returns the integration name and the identifier parts with the
integration segment stripped. -/
def resolveIntegration (integrations : List String) (dns : Option String)
    (parts : List String) : Option (String × List String) :=
  match parts with
  | [] => none
  | p :: rest =>
    if p ∈ integrations ∧ rest ≠ [] then some (p, rest)
    else
      match dns with
      | some d => if d ∈ integrations then some (d, parts) else none
      | none => none

/-- Case-insensitive comparison helper (character-wise lowering; the
namespace names in play are ASCII). -/
def strLower (s : String) : String := String.mk (s.data.map Char.toLower)

/-- Modelled from the spec: predictor attribution (§4.3).  A multi-part
identifier whose head matches the predictor namespace case-insensitively
is a predictor (parts after the namespace); a bare identifier is a
predictor when the default namespace is the predictor namespace. -/
def resolvePredictor (pns : String) (dns : Option String)
    (parts : List String) : Option (List String) :=
  match parts with
  | [] => none
  | p :: rest =>
    if rest ≠ [] ∧ strLower p = strLower pns then some rest
    else if rest = [] ∧ dns.map strLower = some (strLower pns) then
      some parts
    else none

/-- The dotted name under which a predictor is looked up in
`predictor_metadata`. -/
def metaName (parts : List String) : String := String.intercalate "." parts

/-- Metadata lookup for a predictor. -/
def lookupMeta (md : List (String × PredMeta)) (parts : List String) :
    Option PredMeta :=
  (md.find? fun kv => kv.1 = metaName parts).map Prod.snd

/-- The key (alias) a table contributes to identifier attribution: its
declared alias, or the last segment of its (stripped) name. -/
def tableKey (parts : List String) (als : Option String) : String :=
  als.getD (parts.getLastD "")

/-- All identifier `parts` occurring in an expression. -/
def exprIdents : Expr → List (List String)
  | .ident parts _ => [parts]
  | .binop _ _ a b => exprIdents a ++ exprIdents b
  | .between x lo hi => exprIdents x ++ exprIdents lo ++ exprIdents hi
  | _ => []

/-- Identifier disambiguation (§4.4): drop a leading integration segment
from column references (`int.tab1.column1` → `tab1.column1`). -/
def stripIntegrationSeg (ints : List String) : Expr → Expr
  | .ident (p :: rest) als =>
    if p ∈ ints ∧ 2 ≤ rest.length then .ident rest als
    else .ident (p :: rest) als
  | .binop op par a b =>
    .binop op par (stripIntegrationSeg ints a) (stripIntegrationSeg ints b)
  | .between x lo hi =>
    .between (stripIntegrationSeg ints x) (stripIntegrationSeg ints lo)
      (stripIntegrationSeg ints hi)
  | e => e

/-- Column-attribution check: every identifier must have at least two
segments and name one of the joined tables (by key). -/
def identsOk (keys : List String) (e : Expr) : Bool :=
  (exprIdents e).all fun parts =>
    decide (2 ≤ parts.length) && keys.contains (parts.headD "")

/-- `SELECT * FROM <table>` for a remote fetch. -/
def selectStarFrom (parts : List String) (als : Option String) : SelectQ :=
  { targets := [Expr.star], from_table := some (.table (.ident parts als)) }

def stripAlias : Expr → Expr
  | .ident parts _ => .ident parts none
  | e => e

/-- Append a step computed from the index of the current last step (the
`Result` handle a freshly emitted step consumes). -/
def pushStep (acc : List Step) (f : Nat → Step) : List Step :=
  acc ++ [f (acc.length - 1)]

/-- Append a step for an optional clause (absent clause: no step). -/
def optPush {α : Type} (acc : List Step) (o : Option α) (f : α → Nat → Step) :
    List Step :=
  match o with
  | none => acc
  | some a => pushStep acc fun r => f a r

/-- Append the `GroupByStep` (and the HAVING `FilterStep` after it) when a
GROUP BY clause is present. -/
def gbPush (acc : List Step) (gb : Option (List Expr)) (hv : Option Expr)
    (tg : List Expr) : List Step :=
  match gb with
  | none => acc
  | some g =>
    optPush (pushStep acc fun r => Step.groupByStep r tg g) hv
      fun h r => Step.filterStep r h

/-- Append the `LimitOffsetStep` when a LIMIT or OFFSET is present. -/
def limPush (acc : List Step) (lim off : Option Expr) : List Step :=
  if lim.isSome || off.isSome then
    pushStep acc fun r => Step.limitOffsetStep r lim off
  else acc

/-- Validate and disambiguate the join condition (§4.4): every
identifier must, after integration-segment stripping, have at least two
segments and name one of the joined tables. -/
def ttCondCheck (ints : List String) (keys : List String)
    (c : Option Expr) : Except String (Option Expr) :=
  match c with
  | none => .ok none
  | some c0 =>
    let c' := stripIntegrationSeg ints c0
    if identsOk keys c' then .ok (some c')
    else .error "Condition identifier not attributable to a joined table"

/-- Validate WHERE identifiers of a two-table join. -/
def ttWhereOk (ints : List String) (keys : List String)
    (w : Option Expr) : Bool :=
  match w with
  | none => true
  | some w0 => identsOk keys (stripIntegrationSeg ints w0)

/-- The step list of a validated two-table join plan. -/
def buildTwoTables (ints : List String) (q : SelectQ) (j : JoinNode)
    (li : String) (lparts : List String) (lals : Option String)
    (ri : String) (rparts : List String) (rals : Option String)
    (cond' : Option Expr) : List Step :=
  let acc : List Step :=
    [ .fetchDataframe li (selectStarFrom lparts lals),
      .fetchDataframe ri (selectStarFrom rparts rals),
      .joinStep 0 1
        { left := .ident lparts lals, right := .ident rparts rals,
          join_type := j.join_type, condition := cond',
          implicit := j.implicit } ]
  let acc := optPush acc q.whereCond
    fun w r => .filterStep r (stripIntegrationSeg ints w)
  let acc := gbPush acc q.group_by q.having (q.targets.map stripAlias)
  let acc := optPush acc q.order_by fun ob r => .orderByStep r ob
  let acc := limPush acc q.limit q.offset
  pushStep acc fun r => .projectStep r q.targets

/-- Modelled from the spec: planning a join of two integration tables
(§4.4), with the step shapes of `tests/test_planner/test_join_tables.py`:
per-side `SELECT *` fetches, a `JoinStep` whose embedded `Join` carries
the stripped table identifiers and the disambiguated condition, then
optional filter / group-by / having / order-by / limit steps and a final
projection. -/
def plan_join_two_tables (ints : List String) (q : SelectQ) (j : JoinNode)
    (li : String) (lparts : List String) (lals : Option String)
    (ri : String) (rparts : List String) (rals : Option String) :
    Except String (List Step) :=
  match ttCondCheck ints [tableKey lparts lals, tableKey rparts rals]
      j.condition with
  | .error e => .error e
  | .ok cond' =>
    if ttWhereOk ints [tableKey lparts lals, tableKey rparts rals]
        q.whereCond then
      .ok (buildTwoTables ints q j li lparts lals ri rparts rals cond')
    else .error "Ambiguous column in WHERE"

/-- Modelled from the spec: planning a join of an integration table with
a non-time-series predictor (§4.5), with the step shapes of
`tests/test_planner/test_join_predictor.py`: one fetch embedding the
whole original WHERE / GROUP BY / HAVING / ORDER BY / LIMIT / OFFSET,
predictor application over `Result(0)`, a join over synthetic
`result_0` / `result_1` identifiers, and the final projection.  Every
WHERE identifier must reference the integration-side table. -/
def buildPredictorJoin (q : SelectQ) (j : JoinNode) (pnsLow : String)
    (intg : String) (tparts : List String) (tals : Option String)
    (pparts : List String) (pals : Option String) : List Step :=
  [ .fetchDataframe intg
      { targets := [Expr.star],
        from_table := some (.table (.ident tparts tals)),
        whereCond := q.whereCond, group_by := q.group_by,
        having := q.having, order_by := q.order_by,
        limit := q.limit, offset := q.offset },
    .applyPredictor pnsLow (.ident pparts pals) 0,
    .joinStep 0 1
      { left := .ident ["result_0"] (some (tableKey tparts tals)),
        right := .ident ["result_1"] (some (tableKey pparts pals)),
        join_type := j.join_type, condition := j.condition,
        implicit := false },
    .projectStep 2 q.targets ]

/-- Validate WHERE identifiers of a predictor join: each must reference
the integration-side table. -/
def pjWhereOk (tkey : String) (w : Option Expr) : Bool :=
  match w with
  | none => true
  | some w0 => identsOk [tkey] w0

def plan_join_table_predictor (q : SelectQ) (j : JoinNode) (pnsLow : String)
    (intg : String) (tparts : List String) (tals : Option String)
    (pparts : List String) (pals : Option String) :
    Except String (List Step) :=
  if pjWhereOk (tableKey tparts tals) q.whereCond then
    .ok (buildPredictorJoin q j pnsLow intg tparts tals pparts pals)
  else
    .error "WHERE of a joined predictor query must reference only the integration table"

/-- Classification of a time-series WHERE conjunct (§4.6): a time
predicate on the order-by column (comparison against a constant, `>`
against `Latest`, or a BETWEEN over constants) or an equality on the
group-by column. -/
inductive TsConjKind where
  | time
  | group
deriving DecidableEq, Repr

/-- Is an expression a bare `Constant` node? -/
def isConstE : Expr → Bool
  | .const _ => true
  | _ => false

def classifyTsConj (tkey T G : String) (e : Expr) : Option TsConjKind :=
  match e with
  | .binop op _ (.ident [t, c] none) rhs =>
    if t = tkey ∧ c = T ∧
        ((op = ">" ∧ (rhs = .latest ∨ isConstE rhs = true)) ∨
         ((op = "<" ∨ op = "<=" ∨ op = ">=") ∧ isConstE rhs = true)) then
      some .time
    else if t = tkey ∧ c = G ∧ op = "=" ∧ isConstE rhs = true then
      some .group
    else none
  | .between (.ident [t, c] none) (.const _) (.const _) =>
    if t = tkey ∧ c = T then some .time else none
  | _ => none

/-- Modelled from the spec: WHERE validation of the time-series rule
(§4.6).  Permitted: nothing; a single classified conjunct; a single
top-level AND of two classified conjuncts with at most one time
predicate.  Returns the time conjunct.  Anything else (deeper nesting or
a conjunct on another column) is a planning error. -/
def validateTsWhere (tkey T G : String) (w : Option Expr) :
    Except String (Option Expr) :=
  match w with
  | none => .ok none
  | some (.binop "and" _ a b) =>
    match classifyTsConj tkey T G a, classifyTsConj tkey T G b with
    | some .time, some .group => .ok (some a)
    | some .group, some .time => .ok (some b)
    | some .group, some .group => .ok none
    | some .time, some .time => .error "Only one time filter is allowed"
    | _, _ => .error "Invalid WHERE for a time-series predictor query"
  | some e =>
    match classifyTsConj tkey T G e with
    | some .time => .ok (some e)
    | some .group => .ok none
    | none => .error "Invalid WHERE for a time-series predictor query"

/-- Drop the time conjunct from a validated WHERE (what remains feeds
the distinct-groups fetch). -/
def removeTimeConj (tkey T G : String) (w : Option Expr) : Option Expr :=
  match w with
  | none => none
  | some (.binop "and" p a b) =>
    if classifyTsConj tkey T G a = some .time then some b
    else if classifyTsConj tkey T G b = some .time then some a
    else some (.binop "and" p a b)
  | some e =>
    if classifyTsConj tkey T G e = some .time then none else some e

/-- Replace the time conjunct inside a validated WHERE in place. -/
def replaceTimeConj (tkey T G : String) (w : Option Expr) (nc : Expr) :
    Option Expr :=
  match w with
  | none => some nc
  | some (.binop "and" p a b) =>
    if classifyTsConj tkey T G a = some .time then some (.binop "and" p nc b)
    else if classifyTsConj tkey T G b = some .time then some (.binop "and" p a nc)
    else some (.binop "and" p a b)
  | some e =>
    if classifyTsConj tkey T G e = some .time then some nc else some e

/-- The `ta.G = '$var'` group conjunct substituted per map-reduce row. -/
def varFilter (tkey G : String) : Expr :=
  bop "=" (.ident [tkey, G] none) (.const (.str "$var"))

/-- AND the `$var` group conjunct onto a (possibly absent) base WHERE. -/
def andVar (tkey G : String) (base : Option Expr) : Expr :=
  match base with
  | none => varFilter tkey G
  | some b => bop "and" b (varFilter tkey G)

/-- `ORDER BY ta.T DESC` of every template fetch. -/
def tsOrderBy (tkey T : String) : List OrderByItem :=
  [{ field := .ident [tkey, T] none, direction := "DESC" }]

/-- One template fetch of the map-reduce scatter. -/
def tsFetch (intg : String) (tparts : List String) (tals : Option String)
    (tkey T : String) (w : Expr) (lim : Option Expr) : FetchT :=
  { integration := intg,
    query := { targets := [Expr.star],
               from_table := some (.table (.ident tparts tals)),
               whereCond := some w,
               order_by := some (tsOrderBy tkey T),
               limit := lim } }

/-- Modelled from the spec: the map-reduce template as a function of the
time predicate (§4.6 table).  `w` is the full original WHERE, `tc` the
validated time conjunct. -/
def tsTemplate (intg : String) (tparts : List String) (tals : Option String)
    (tkey T G : String) (window : Nat) (w : Option Expr) (tc : Option Expr) :
    TsTemplate :=
  let wlim : Option Expr := some (.const (.int window))
  match tc with
  | none => .single (tsFetch intg tparts tals tkey T (andVar tkey G w) none)
  | some c =>
    match c with
    | .binop ">" _ _ .latest =>
      .single (tsFetch intg tparts tals tkey T
        (andVar tkey G (removeTimeConj tkey T G w)) wlim)
    | .binop ">" _ t k =>
      .multi "union"
        [ tsFetch intg tparts tals tkey T
            (andVar tkey G (replaceTimeConj tkey T G w (bop "<=" t k))) wlim,
          tsFetch intg tparts tals tkey T (andVar tkey G w) none ]
    | .binop ">=" _ t k =>
      .multi "union"
        [ tsFetch intg tparts tals tkey T
            (andVar tkey G (replaceTimeConj tkey T G w (bop "<" t k))) wlim,
          tsFetch intg tparts tals tkey T (andVar tkey G w) none ]
    | .between t k1 _ =>
      .multi "union"
        [ tsFetch intg tparts tals tkey T
            (andVar tkey G (replaceTimeConj tkey T G w (bop "<" t k1))) wlim,
          tsFetch intg tparts tals tkey T (andVar tkey G w) none ]
    | _ => .single (tsFetch intg tparts tals tkey T (andVar tkey G w) none)

/-- Modelled from the spec: the time-series predictor join rule (§4.6),
with the step shapes of `tests/test_planner/test_ts_predictor.py`:
distinct-groups fetch, map-reduce scatter over `Result(0)`, time-series
predictor application over `Result(1)`, a LEFT JOIN of predictor output
(`result_2`, predictor alias) with windowed history (`result_1`, table
alias), an optional limit step, and the final projection. -/
def buildTimeseries (q : SelectQ) (pnsLow : String) (m : PredMeta)
    (intg : String) (tparts : List String) (tals : Option String)
    (pparts : List String) (pals : Option String) (tc : Option Expr) :
    List Step :=
  let acc : List Step :=
    [ .fetchDataframe intg
        { targets := [.ident [tableKey tparts tals, m.group_by_column]
                        (some m.group_by_column)],
          from_table := some (.table (.ident tparts tals)),
          whereCond := removeTimeConj (tableKey tparts tals)
            m.order_by_column m.group_by_column q.whereCond,
          distinct := true },
      .mapReduceStep 0 "union"
        (tsTemplate intg tparts tals (tableKey tparts tals)
          m.order_by_column m.group_by_column m.window q.whereCond tc),
      .applyTimeseriesPredictor pnsLow (.ident pparts pals) 1 tc,
      .joinStep 2 1
        { left := .ident ["result_2"] (some (tableKey pparts pals)),
          right := .ident ["result_1"] (some (tableKey tparts tals)),
          join_type := some JoinType.left_join } ]
  let acc := optPush acc q.limit fun l r => .limitOffsetStep r (some l) none
  pushStep acc fun r => .projectStep r q.targets

def plan_timeseries (q : SelectQ) (pnsLow : String) (m : PredMeta)
    (intg : String) (tparts : List String) (tals : Option String)
    (pparts : List String) (pals : Option String) :
    Except String (List Step) :=
  match validateTsWhere (tableKey tparts tals) m.order_by_column
      m.group_by_column q.whereCond with
  | .error e => .error e
  | .ok tc =>
    .ok (buildTimeseries q pnsLow m intg tparts tals pparts pals tc)

/-- Flatten a conjunction of ANDs. -/
def splitAnd : Expr → List Expr
  | .binop "and" _ a b => splitAnd a ++ splitAnd b
  | e => [e]

/-- Modelled from the spec: the WHERE of a predictor-only select folded
into a literal row dictionary (§4.3 rule 5). -/
def rowDictOf (w : Option Expr) : Except String (List (String × CValue)) :=
  match w with
  | none => .ok []
  | some w' =>
    let conjs := splitAnd w'
    if conjs.all (fun c =>
        match c with
        | .binop "=" _ (.ident _ _) (.const _) => true
        | _ => false) then
      .ok (conjs.filterMap fun c =>
        match c with
        | .binop "=" _ (.ident parts _) (.const v) =>
          some (String.intercalate "." parts, v)
        | _ => none)
    else .error "Predictor row SELECT supports only equality conjuncts in WHERE"

/-- Modelled from the spec: the planner entry point `plan_query` (§4.3),
dispatching on the FROM shape: single integration table, predictor-only
select, join of two integration tables, join of an integration table
with a (time-series or plain) predictor.  Unsupported shapes raise a
planning error, mirroring "Planning never falls back silently" (§7). -/
def plan_query (q : SelectQ) (integrations : List String)
    (pns : String) (dns : Option String)
    (md : List (String × PredMeta)) : Except String QueryPlan :=
  match q.from_table with
  | none => .error "Query has no FROM clause to plan"
  | some (.table (.ident parts als)) =>
    (match resolvePredictor pns dns parts with
     | some pparts =>
       match rowDictOf q.whereCond with
       | .error e => .error e
       | .ok row =>
         .ok { steps := [.applyPredictorRow (strLower pns) (.ident pparts als) row],
               default_namespace := dns }
     | none =>
       match resolveIntegration integrations dns parts with
       | none => .error "Table not attributable to an integration"
       | some (intg, tparts) =>
         .ok { steps :=
                 [ .fetchDataframe intg
                     { q with from_table := some (.table (.ident tparts als)) },
                   .projectStep 0 q.targets ],
               default_namespace := dns })
  | some (.table _) => .error "Unsupported FROM shape"
  | some (.joined j) =>
    match j.left, j.right with
    | .ident lparts lals, .ident rparts rals =>
      (match resolvePredictor pns dns rparts with
       | some pparts =>
         (match resolveIntegration integrations dns lparts with
          | none => .error "Join table not attributable to an integration"
          | some (intg, tparts) =>
            match lookupMeta md pparts with
            | some m =>
              if m.timeseries then
                (plan_timeseries q (strLower pns) m intg tparts lals
                    pparts rals).map
                  fun s => { steps := s, default_namespace := dns }
              else
                (plan_join_table_predictor q j (strLower pns) intg tparts lals
                    pparts rals).map
                  fun s => { steps := s, default_namespace := dns }
            | none =>
              (plan_join_table_predictor q j (strLower pns) intg tparts lals
                  pparts rals).map
                fun s => { steps := s, default_namespace := dns })
       | none =>
         match resolvePredictor pns dns lparts with
         | some _ => .error "Predictor-on-the-left joins are outside the modelled fragment"
         | none =>
           match resolveIntegration integrations dns lparts,
               resolveIntegration integrations dns rparts with
           | some (li, lp), some (ri, rp) =>
             (plan_join_two_tables integrations q j li lp lals ri rp rals).map
               fun s => { steps := s, default_namespace := dns }
           | _, _ => .error "No predictor found in join and tables unresolved")
    | _, _ => .error "Unsupported join sides"

/-! ## Result-handle well-formedness

`stepRefsOk s i` checks that every `Result(j)` handle occurring in step
`s` satisfies `j < i`.  Map-reduce templates consist of fetch steps,
which carry no `Result` handles, so the only handle inside a
`MapReduceStep` is its `values` field. -/

def stepRefsOk : Step → Nat → Bool
  | .fetchDataframe _ _, _ => true
  | .applyPredictor _ _ d, i => decide (d < i)
  | .applyPredictorRow _ _ _, _ => true
  | .applyTimeseriesPredictor _ _ d _, i => decide (d < i)
  | .joinStep l r _, i => decide (l < i) && decide (r < i)
  | .filterStep d _, i => decide (d < i)
  | .projectStep d _, i => decide (d < i)
  | .groupByStep d _ _, i => decide (d < i)
  | .orderByStep d _, i => decide (d < i)
  | .limitOffsetStep d _ _, i => decide (d < i)
  | .mapReduceStep v _ _, i => decide (v < i)

/-- All steps of `l`, read as the plan suffix starting at emission index
`n`, reference only earlier results. -/
def wfFrom : Nat → List Step → Bool
  | _, [] => true
  | n, s :: rest => stepRefsOk s n && wfFrom (n + 1) rest

def wfSteps (l : List Step) : Bool := wfFrom 0 l

theorem wfFrom_append (l₁ l₂ : List Step) (n : Nat) :
    wfFrom n (l₁ ++ l₂) = (wfFrom n l₁ && wfFrom (n + l₁.length) l₂) := by
  induction l₁ generalizing n with
  | nil => simp [wfFrom]
  | cons s t ih =>
    simp [wfFrom, ih, Bool.and_assoc, Nat.add_assoc, Nat.add_comm 1 t.length]

/-- Well-formed and nonempty: the invariant threaded through the
planner's step-accumulation. -/
def WFAcc (acc : List Step) : Prop := wfFrom 0 acc = true ∧ 0 < acc.length

theorem WFAcc.push {acc : List Step} {f : Nat → Step} (h : WFAcc acc)
    (hf : stepRefsOk (f (acc.length - 1)) acc.length = true) :
    WFAcc (pushStep acc f) := by
  refine ⟨?_, ?_⟩
  · simpa [pushStep, wfFrom_append, wfFrom, hf] using h.1
  · simp [pushStep]

theorem WFAcc.lastLt {acc : List Step} (h : WFAcc acc) :
    acc.length - 1 < acc.length := Nat.sub_lt h.2 one_pos

theorem WFAcc.optPush {α : Type} {acc : List Step} {o : Option α}
    {f : α → Nat → Step} (h : WFAcc acc)
    (hf : ∀ a, stepRefsOk (f a (acc.length - 1)) acc.length = true) :
    WFAcc (MindsdbSql.optPush acc o f) := by
  cases o with
  | none => exact h
  | some a => exact h.push (hf a)

theorem WFAcc.gbPush {acc : List Step} {gb : Option (List Expr)}
    {hv : Option Expr} {tg : List Expr} (h : WFAcc acc) :
    WFAcc (MindsdbSql.gbPush acc gb hv tg) := by
  cases gb with
  | none => exact h
  | some g =>
    refine WFAcc.optPush ?_ ?_
    · exact h.push (by simp [stepRefsOk, h.lastLt])
    · intro a
      simp only [stepRefsOk, decide_eq_true_eq]
      exact (h.push (by simp [stepRefsOk, h.lastLt])).lastLt

theorem WFAcc.limPush {acc : List Step} {lim off : Option Expr}
    (h : WFAcc acc) : WFAcc (MindsdbSql.limPush acc lim off) := by
  unfold MindsdbSql.limPush
  split
  · exact h.push (by simp [stepRefsOk, h.lastLt])
  · exact h

theorem wfFrom_get (l : List Step) (n : Nat) (h : wfFrom n l = true) :
    ∀ i (hi : i < l.length), stepRefsOk (l.get ⟨i, hi⟩) (n + i) = true := by
  induction l generalizing n with
  | nil => intro i hi; simp at hi
  | cons s t ih =>
    intro i hi
    simp only [wfFrom, Bool.and_eq_true] at h
    cases i with
    | zero => simpa using h.1
    | succ j =>
      have := ih (n + 1) h.2 j (by simpa using Nat.lt_of_succ_lt_succ hi)
      simpa [Nat.add_assoc, Nat.add_comm 1 j] using this

theorem except_map_ok {α β : Type} {x : Except String α} {f : α → β}
    {b : β} (h : Except.map f x = .ok b) : ∃ a, x = .ok a ∧ b = f a := by
  cases x with
  | ok a =>
    refine ⟨a, rfl, ?_⟩
    simpa [Except.map] using h.symm
  | error e => simp [Except.map] at h

instance {ε α : Type} [DecidableEq ε] [DecidableEq α] :
    DecidableEq (Except ε α) := fun x y =>
  match x, y with
  | .ok v, .ok w =>
    if h : v = w then .isTrue (by rw [h]) else .isFalse (by simp [h])
  | .error v, .error w =>
    if h : v = w then .isTrue (by rw [h]) else .isFalse (by simp [h])
  | .ok _, .error _ => .isFalse (by simp)
  | .error _, .ok _ => .isFalse (by simp)

theorem wf_buildTwoTables (ints : List String) (q : SelectQ) (j : JoinNode)
    (li : String) (lp : List String) (la : Option String)
    (ri : String) (rp : List String) (ra : Option String)
    (cond' : Option Expr) :
    wfSteps (buildTwoTables ints q j li lp la ri rp ra cond') = true := by
  unfold buildTwoTables
  have base : WFAcc
      [ Step.fetchDataframe li (selectStarFrom lp la),
        Step.fetchDataframe ri (selectStarFrom rp ra),
        Step.joinStep 0 1
          { left := .ident lp la, right := .ident rp ra,
            join_type := j.join_type,
            condition := cond', implicit := j.implicit } ] :=
    ⟨rfl, by simp⟩
  have w1 := @WFAcc.optPush Expr _ q.whereCond
    (fun w r => Step.filterStep r (stripIntegrationSeg ints w)) base
    (fun a => by simp [stepRefsOk])
  have w2 := @WFAcc.gbPush _ q.group_by q.having
    (q.targets.map stripAlias) w1
  have w3 := @WFAcc.optPush (List OrderByItem) _ q.order_by
    (fun ob r => Step.orderByStep r ob) w2
    (fun a => by simpa [stepRefsOk] using w2.lastLt)
  have w4 := @WFAcc.limPush _ q.limit q.offset w3
  exact (w4.push (by simpa [stepRefsOk] using w4.lastLt)).1

theorem two_tables_ok_inv {ints : List String} {q : SelectQ} {j : JoinNode}
    {li : String} {lp : List String} {la : Option String}
    {ri : String} {rp : List String} {ra : Option String} {steps : List Step}
    (h : plan_join_two_tables ints q j li lp la ri rp ra = .ok steps) :
    ∃ cond', steps = buildTwoTables ints q j li lp la ri rp ra cond' := by
  unfold plan_join_two_tables at h
  split at h
  · cases h
  · split at h
    · rw [Except.ok.injEq] at h
      exact ⟨_, h.symm⟩
    · cases h

theorem wf_join_two_tables {ints : List String} {q : SelectQ} {j : JoinNode}
    {li : String} {lp : List String} {la : Option String}
    {ri : String} {rp : List String} {ra : Option String} {steps : List Step}
    (h : plan_join_two_tables ints q j li lp la ri rp ra = .ok steps) :
    wfSteps steps = true := by
  obtain ⟨c', rfl⟩ := two_tables_ok_inv h
  exact wf_buildTwoTables ints q j li lp la ri rp ra c'

theorem predictor_ok_inv {q : SelectQ} {j : JoinNode} {pnsLow : String}
    {intg : String} {tp : List String} {ta : Option String}
    {pp : List String} {pa : Option String} {steps : List Step}
    (h : plan_join_table_predictor q j pnsLow intg tp ta pp pa = .ok steps) :
    steps = buildPredictorJoin q j pnsLow intg tp ta pp pa := by
  unfold plan_join_table_predictor at h
  split at h
  · rw [Except.ok.injEq] at h
    exact h.symm
  · cases h

theorem wf_join_table_predictor {q : SelectQ} {j : JoinNode} {pnsLow : String}
    {intg : String} {tp : List String} {ta : Option String}
    {pp : List String} {pa : Option String} {steps : List Step}
    (h : plan_join_table_predictor q j pnsLow intg tp ta pp pa = .ok steps) :
    wfSteps steps = true := by
  rw [predictor_ok_inv h]
  rfl

theorem ts_ok_inv {q : SelectQ} {pnsLow : String} {m : PredMeta}
    {intg : String} {tp : List String} {ta : Option String}
    {pp : List String} {pa : Option String} {steps : List Step}
    (h : plan_timeseries q pnsLow m intg tp ta pp pa = .ok steps) :
    ∃ tc, validateTsWhere (tableKey tp ta) m.order_by_column
        m.group_by_column q.whereCond = .ok tc ∧
      steps = buildTimeseries q pnsLow m intg tp ta pp pa tc := by
  unfold plan_timeseries at h
  split at h
  · cases h
  · rw [Except.ok.injEq] at h
    next tc heq => exact ⟨tc, heq, h.symm⟩

theorem wf_buildTimeseries (q : SelectQ) (pnsLow : String) (m : PredMeta)
    (intg : String) (tp : List String) (ta : Option String)
    (pp : List String) (pa : Option String) (tc : Option Expr) :
    wfSteps (buildTimeseries q pnsLow m intg tp ta pp pa tc) = true := by
  unfold buildTimeseries
  have base : WFAcc
      [ Step.fetchDataframe intg
          { targets := [.ident [tableKey tp ta, m.group_by_column]
                          (some m.group_by_column)],
            from_table := some (.table (.ident tp ta)),
            whereCond := removeTimeConj (tableKey tp ta)
              m.order_by_column m.group_by_column q.whereCond,
            distinct := true },
        Step.mapReduceStep 0 "union"
          (tsTemplate intg tp ta (tableKey tp ta)
            m.order_by_column m.group_by_column m.window q.whereCond tc),
        Step.applyTimeseriesPredictor pnsLow (.ident pp pa) 1 tc,
        Step.joinStep 2 1
          { left := .ident ["result_2"] (some (tableKey pp pa)),
            right := .ident ["result_1"] (some (tableKey tp ta)),
            join_type := some JoinType.left_join } ] := ⟨rfl, by simp⟩
  have w1 := @WFAcc.optPush Expr _ q.limit
    (fun l r => Step.limitOffsetStep r (some l) none) base
    (fun a => by simp [stepRefsOk])
  exact (w1.push (by simpa [stepRefsOk] using w1.lastLt)).1

theorem wf_timeseries {q : SelectQ} {pnsLow : String} {m : PredMeta}
    {intg : String} {tp : List String} {ta : Option String}
    {pp : List String} {pa : Option String} {steps : List Step}
    (h : plan_timeseries q pnsLow m intg tp ta pp pa = .ok steps) :
    wfSteps steps = true := by
  obtain ⟨tc, _, rfl⟩ := ts_ok_inv h
  exact wf_buildTimeseries q pnsLow m intg tp ta pp pa tc

/-- C10: For every QueryPlan produced by plan_query, every Result(i)
handle appearing in any step (including inside MapReduce templates,
whose fetch steps carry no handles, leaving only the `values` field)
satisfies i < the emission index of the step that contains it; no step
references its own output or a later step's output. -/
theorem C10_result_handles_bounded (q : SelectQ) (ints : List String)
    (pns : String) (dns : Option String) (md : List (String × PredMeta))
    (plan : QueryPlan) (h : plan_query q ints pns dns md = .ok plan)
    (i : Nat) (hi : i < plan.steps.length) :
    stepRefsOk (plan.steps.get ⟨i, hi⟩) i = true := by
  have main : wfSteps plan.steps = true := by
    unfold plan_query at h
    repeat' split at h
    all_goals try (exact Except.noConfusion h)
    all_goals
      first
        | (rw [Except.ok.injEq] at h; subst h; rfl)
        | (obtain ⟨s, hs, hplan⟩ := except_map_ok h; subst hplan
           first
             | exact wf_timeseries hs
             | exact wf_join_table_predictor hs
             | exact wf_join_two_tables hs)
  simpa using wfFrom_get plan.steps 0 main i hi

/-! ## Dispatch lemmas -/

theorem plan_query_ts_dispatch
    {q : SelectQ} {ints : List String} {pns : String} {dns : Option String}
    {md : List (String × PredMeta)} {j : JoinNode}
    {lparts : List String} {lals : Option String}
    {rparts : List String} {rals : Option String}
    {pparts : List String} {intg : String} {tparts : List String}
    {m : PredMeta}
    (h1 : q.from_table = some (.joined j))
    (h2 : j.left = .ident lparts lals)
    (h3 : j.right = .ident rparts rals)
    (h4 : resolvePredictor pns dns rparts = some pparts)
    (h5 : resolveIntegration ints dns lparts = some (intg, tparts))
    (h6 : lookupMeta md pparts = some m)
    (h7 : m.timeseries = true) :
    plan_query q ints pns dns md =
      (plan_timeseries q (strLower pns) m intg tparts lals pparts rals).map
        fun s => { steps := s, default_namespace := dns } := by
  unfold plan_query
  simp only [h1, h2, h3, h4, h5, h6, h7, if_true]

theorem plan_query_predictor_dispatch
    {q : SelectQ} {ints : List String} {pns : String} {dns : Option String}
    {md : List (String × PredMeta)} {j : JoinNode}
    {lparts : List String} {lals : Option String}
    {rparts : List String} {rals : Option String}
    {pparts : List String} {intg : String} {tparts : List String}
    (h1 : q.from_table = some (.joined j))
    (h2 : j.left = .ident lparts lals)
    (h3 : j.right = .ident rparts rals)
    (h4 : resolvePredictor pns dns rparts = some pparts)
    (h5 : resolveIntegration ints dns lparts = some (intg, tparts))
    (h6 : ∀ m, lookupMeta md pparts = some m → m.timeseries = false) :
    plan_query q ints pns dns md =
      (plan_join_table_predictor q j (strLower pns) intg tparts lals
          pparts rals).map
        fun s => { steps := s, default_namespace := dns } := by
  unfold plan_query
  simp only [h1, h2, h3, h4, h5]
  cases hm : lookupMeta md pparts with
  | none => simp
  | some m => simp [h6 m hm]

/-- Prefix indexing through the optional-push and final-push wrappers. -/
theorem optPush_getElem_lt {α : Type} (acc : List Step) (o : Option α)
    (f : α → Nat → Step) (i : Nat) (hi : i < acc.length) :
    (optPush acc o f)[i]? = acc[i]? := by
  cases o with
  | none => rfl
  | some a => simp [optPush, pushStep, List.getElem?_append, hi]

theorem pushStep_getElem_lt (acc : List Step) (f : Nat → Step) (i : Nat)
    (hi : i < acc.length) : (pushStep acc f)[i]? = acc[i]? := by
  simp [pushStep, List.getElem?_append, hi]

/-- C1: For every SELECT joining an integration table with a time-series
predictor (present in the metadata with timeseries = true), the emitted
plan's step 0 is a FetchDataframeStep selecting the distinct group-by
column, step 1 is a MapReduceStep over Result(0) with reduce = "union",
step 2 is an ApplyTimeseriesPredictorStep consuming Result(1), and step 3
is a JoinStep with LEFT JOIN whose left is Result(2) (synthetic
identifier result_2 aliased to the predictor's alias) and whose right is
Result(1) (synthetic identifier result_1 aliased to the table's alias). -/
theorem C1_ts_plan_step_shape
    {q : SelectQ} {ints : List String} {pns : String} {dns : Option String}
    {md : List (String × PredMeta)} {j : JoinNode}
    {lparts : List String} {lals : Option String}
    {rparts : List String} {rals : Option String}
    {pparts : List String} {intg : String} {tparts : List String}
    {m : PredMeta} {plan : QueryPlan}
    (h1 : q.from_table = some (.joined j))
    (h2 : j.left = .ident lparts lals)
    (h3 : j.right = .ident rparts rals)
    (h4 : resolvePredictor pns dns rparts = some pparts)
    (h5 : resolveIntegration ints dns lparts = some (intg, tparts))
    (h6 : lookupMeta md pparts = some m)
    (h7 : m.timeseries = true)
    (h8 : plan_query q ints pns dns md = .ok plan) :
    ∃ w tmpl tf,
      plan.steps[0]? = some (.fetchDataframe intg
          { targets := [.ident [tableKey tparts lals, m.group_by_column]
                          (some m.group_by_column)],
            from_table := some (.table (.ident tparts lals)),
            whereCond := w, distinct := true }) ∧
      plan.steps[1]? = some (.mapReduceStep 0 "union" tmpl) ∧
      plan.steps[2]? = some (.applyTimeseriesPredictor (strLower pns)
          (.ident pparts rals) 1 tf) ∧
      plan.steps[3]? = some (.joinStep 2 1
          { left := .ident ["result_2"] (some (tableKey pparts rals)),
            right := .ident ["result_1"] (some (tableKey tparts lals)),
            join_type := some JoinType.left_join }) := by
  rw [plan_query_ts_dispatch h1 h2 h3 h4 h5 h6 h7] at h8
  obtain ⟨s, hs, rfl⟩ := except_map_ok h8
  obtain ⟨tc, _, rfl⟩ := ts_ok_inv hs
  refine ⟨removeTimeConj (tableKey tparts lals) m.order_by_column
      m.group_by_column q.whereCond,
    tsTemplate intg tparts lals (tableKey tparts lals) m.order_by_column
      m.group_by_column m.window q.whereCond tc,
    tc, ?_, ?_, ?_, ?_⟩ <;>
    cases hl : q.limit <;>
      simp [buildTimeseries, optPush, pushStep, hl]

/-- C2: For every time-series predictor join whose WHERE is the
conjunction of a time predicate `τ > k` or `τ >= k` (τ the order-by
column, k a constant) with a group conjunct, the MapReduceStep template
is a MultipleSteps union of exactly two FetchDataframeStep templates:
(a) a history fetch with the predicate flipped to `τ <= k` (for `>`) or
`τ < k` (for `>=`), the group filter preserved, ORDER BY τ DESC and
LIMIT window; (b) a forecast fetch with the original predicate
preserved, ORDER BY τ DESC and no LIMIT; the `ta.G = '$var'` group
conjunct is ANDed into both templates' WHERE. -/
theorem C2_ts_greater_template
    {q : SelectQ} {ints : List String} {pns : String} {dns : Option String}
    {md : List (String × PredMeta)} {j : JoinNode}
    {lparts : List String} {lals : Option String}
    {rparts : List String} {rals : Option String}
    {pparts : List String} {intg : String} {tparts : List String}
    {m : PredMeta} {plan : QueryPlan} {tc gc : Expr} {op : String}
    {k : CValue}
    (h1 : q.from_table = some (.joined j))
    (h2 : j.left = .ident lparts lals)
    (h3 : j.right = .ident rparts rals)
    (h4 : resolvePredictor pns dns rparts = some pparts)
    (h5 : resolveIntegration ints dns lparts = some (intg, tparts))
    (h6 : lookupMeta md pparts = some m)
    (h7 : m.timeseries = true)
    (hw : q.whereCond = some (.binop "and" false tc gc))
    (htc : tc = .binop op false
      (.ident [tableKey tparts lals, m.order_by_column] none) (.const k))
    (hop : op = ">" ∨ op = ">=")
    (hgc : classifyTsConj (tableKey tparts lals) m.order_by_column
      m.group_by_column gc = some .group)
    (h8 : plan_query q ints pns dns md = .ok plan) :
    plan.steps[1]? = some (.mapReduceStep 0 "union" (.multi "union"
      [ { integration := intg,
          query :=
            { targets := [Expr.star],
              from_table := some (.table (.ident tparts lals)),
              whereCond := some (Expr.binop "and" false
                (Expr.binop "and" false
                  (Expr.binop (if op = ">" then "<=" else "<") false
                    (.ident [tableKey tparts lals, m.order_by_column] none)
                    (.const k))
                  gc)
                (varFilter (tableKey tparts lals) m.group_by_column)),
              order_by := some (tsOrderBy (tableKey tparts lals)
                m.order_by_column),
              limit := some (.const (.int m.window)) } },
        { integration := intg,
          query :=
            { targets := [Expr.star],
              from_table := some (.table (.ident tparts lals)),
              whereCond := some (Expr.binop "and" false
                (Expr.binop "and" false tc gc)
                (varFilter (tableKey tparts lals) m.group_by_column)),
              order_by := some (tsOrderBy (tableKey tparts lals)
                m.order_by_column),
              limit := none } } ])) := by
  rw [plan_query_ts_dispatch h1 h2 h3 h4 h5 h6 h7] at h8
  obtain ⟨s, hs, rfl⟩ := except_map_ok h8
  obtain ⟨tc', hval, rfl⟩ := ts_ok_inv hs
  have hctc : classifyTsConj (tableKey tparts lals) m.order_by_column
      m.group_by_column tc = some .time := by
    rw [htc]
    rcases hop with h | h <;> subst h <;> simp [classifyTsConj, isConstE]
  have hval' : validateTsWhere (tableKey tparts lals) m.order_by_column
      m.group_by_column q.whereCond = .ok (some tc) := by
    rw [hw]
    simp [validateTsWhere, hctc, hgc]
  rw [hval'] at hval
  obtain rfl : some tc = tc' := by
    rw [Except.ok.injEq] at hval
    exact hval
  rcases hop with h | h <;> subst h <;>
    cases hl : q.limit <;>
      simp [buildTimeseries, optPush, pushStep, hl, hw, htc, tsTemplate,
        replaceTimeConj, andVar, varFilter, tsFetch, classifyTsConj,
        isConstE, bop, List.getElem?_append]

/-- C3: For every time-series predictor join whose WHERE conjoins
`τ > Latest()` with a group conjunct, the MapReduceStep template is a
single FetchDataframeStep with ORDER BY τ DESC and LIMIT window whose
WHERE holds only the group conjuncts (ANDed with the `$var` filter, no
time comparison), and the ApplyTimeseriesPredictorStep's
output_time_filter is the original `τ > Latest()` predicate with the
Latest node preserved verbatim. -/
theorem C3_ts_latest_template
    {q : SelectQ} {ints : List String} {pns : String} {dns : Option String}
    {md : List (String × PredMeta)} {j : JoinNode}
    {lparts : List String} {lals : Option String}
    {rparts : List String} {rals : Option String}
    {pparts : List String} {intg : String} {tparts : List String}
    {m : PredMeta} {plan : QueryPlan} {tc gc : Expr}
    (h1 : q.from_table = some (.joined j))
    (h2 : j.left = .ident lparts lals)
    (h3 : j.right = .ident rparts rals)
    (h4 : resolvePredictor pns dns rparts = some pparts)
    (h5 : resolveIntegration ints dns lparts = some (intg, tparts))
    (h6 : lookupMeta md pparts = some m)
    (h7 : m.timeseries = true)
    (hw : q.whereCond = some (.binop "and" false tc gc))
    (htc : tc = .binop ">" false
      (.ident [tableKey tparts lals, m.order_by_column] none) .latest)
    (hgc : classifyTsConj (tableKey tparts lals) m.order_by_column
      m.group_by_column gc = some .group)
    (h8 : plan_query q ints pns dns md = .ok plan) :
    plan.steps[1]? = some (.mapReduceStep 0 "union" (.single
      { integration := intg,
        query :=
          { targets := [Expr.star],
            from_table := some (.table (.ident tparts lals)),
            whereCond := some (Expr.binop "and" false gc
              (varFilter (tableKey tparts lals) m.group_by_column)),
            order_by := some (tsOrderBy (tableKey tparts lals)
              m.order_by_column),
            limit := some (.const (.int m.window)) } })) ∧
    plan.steps[2]? = some (.applyTimeseriesPredictor (strLower pns)
      (.ident pparts rals) 1
      (some (.binop ">" false
        (.ident [tableKey tparts lals, m.order_by_column] none) .latest))) := by
  rw [plan_query_ts_dispatch h1 h2 h3 h4 h5 h6 h7] at h8
  obtain ⟨s, hs, rfl⟩ := except_map_ok h8
  obtain ⟨tc', hval, rfl⟩ := ts_ok_inv hs
  have hctc : classifyTsConj (tableKey tparts lals) m.order_by_column
      m.group_by_column tc = some .time := by
    rw [htc]
    simp [classifyTsConj]
  have hval' : validateTsWhere (tableKey tparts lals) m.order_by_column
      m.group_by_column q.whereCond = .ok (some tc) := by
    rw [hw]
    simp [validateTsWhere, hctc, hgc]
  rw [hval'] at hval
  obtain rfl : some tc = tc' := by
    rw [Except.ok.injEq] at hval
    exact hval
  constructor <;>
    cases hl : q.limit <;>
      simp [buildTimeseries, optPush, pushStep, hl, hw, htc, tsTemplate,
        removeTimeConj, andVar, varFilter, tsFetch, classifyTsConj,
        isConstE, bop, List.getElem?_append]

theorem plan_query_two_tables_dispatch
    {q : SelectQ} {ints : List String} {pns : String} {dns : Option String}
    {md : List (String × PredMeta)} {j : JoinNode}
    {lparts : List String} {lals : Option String}
    {rparts : List String} {rals : Option String}
    {li : String} {lp2 : List String} {ri : String} {rp2 : List String}
    (h1 : q.from_table = some (.joined j))
    (h2 : j.left = .ident lparts lals)
    (h3 : j.right = .ident rparts rals)
    (h4 : resolvePredictor pns dns rparts = none)
    (h4l : resolvePredictor pns dns lparts = none)
    (h5 : resolveIntegration ints dns lparts = some (li, lp2))
    (h5r : resolveIntegration ints dns rparts = some (ri, rp2)) :
    plan_query q ints pns dns md =
      (plan_join_two_tables ints q j li lp2 lals ri rp2 rals).map
        fun s => { steps := s, default_namespace := dns } := by
  unfold plan_query
  simp only [h1, h2, h3, h4, h4l, h5, h5r]

theorem gbPush_getElem_lt (acc : List Step) (gb : Option (List Expr))
    (hv : Option Expr) (tg : List Expr) (i : Nat) (hi : i < acc.length) :
    (gbPush acc gb hv tg)[i]? = acc[i]? := by
  cases gb with
  | none => rfl
  | some g =>
    rw [gbPush, optPush_getElem_lt, pushStep_getElem_lt acc _ i hi]
    simp [pushStep]
    omega

theorem limPush_getElem_lt (acc : List Step) (lim off : Option Expr)
    (i : Nat) (hi : i < acc.length) :
    (limPush acc lim off)[i]? = acc[i]? := by
  unfold limPush
  split
  · exact pushStep_getElem_lt acc _ i hi
  · rfl

theorem optPush_length_ge {α : Type} (acc : List Step) (o : Option α)
    (f : α → Nat → Step) : acc.length ≤ (optPush acc o f).length := by
  cases o <;> simp [optPush, pushStep]

theorem gbPush_length_ge (acc : List Step) (gb : Option (List Expr))
    (hv : Option Expr) (tg : List Expr) :
    acc.length ≤ (gbPush acc gb hv tg).length := by
  cases gb with
  | none => exact le_refl _
  | some g =>
    refine le_trans ?_ (optPush_length_ge _ hv _)
    simp [pushStep]

theorem limPush_length_ge (acc : List Step) (lim off : Option Expr) :
    acc.length ≤ (limPush acc lim off).length := by
  unfold limPush
  split
  · simp [pushStep]
  · exact le_refl _

/-- C5 (amended): For every plan_query over a join of two integration
tables, the emitted JoinStep is step 2, consuming Result(0) and
Result(1); its embedded `Join`'s `query.left` and `query.right` are the
integration-stripped table identifiers retaining the original table
aliases (not synthetic `result_<i>` identifiers, which the planner uses
only for predictor joins). -/
theorem C5_two_table_joinstep
    {q : SelectQ} {ints : List String} {pns : String} {dns : Option String}
    {md : List (String × PredMeta)} {j : JoinNode}
    {lparts : List String} {lals : Option String}
    {rparts : List String} {rals : Option String}
    {li : String} {lp2 : List String} {ri : String} {rp2 : List String}
    {plan : QueryPlan}
    (h1 : q.from_table = some (.joined j))
    (h2 : j.left = .ident lparts lals)
    (h3 : j.right = .ident rparts rals)
    (h4 : resolvePredictor pns dns rparts = none)
    (h4l : resolvePredictor pns dns lparts = none)
    (h5 : resolveIntegration ints dns lparts = some (li, lp2))
    (h5r : resolveIntegration ints dns rparts = some (ri, rp2))
    (h8 : plan_query q ints pns dns md = .ok plan) :
    ∃ cnd,
      plan.steps[2]? = some (.joinStep 0 1
        { left := .ident lp2 lals, right := .ident rp2 rals,
          join_type := j.join_type, condition := cnd,
          implicit := j.implicit }) := by
  rw [plan_query_two_tables_dispatch h1 h2 h3 h4 h4l h5 h5r] at h8
  obtain ⟨s, hs, rfl⟩ := except_map_ok h8
  obtain ⟨cnd, rfl⟩ := two_tables_ok_inv hs
  refine ⟨cnd, ?_⟩
  show (buildTwoTables ints q j li lp2 lals ri rp2 rals cnd)[2]? = _
  unfold buildTwoTables
  have h0 : (2:Nat) <
      ([ Step.fetchDataframe li (selectStarFrom lp2 lals),
         Step.fetchDataframe ri (selectStarFrom rp2 rals),
         Step.joinStep 0 1
           { left := .ident lp2 lals, right := .ident rp2 rals,
             join_type := j.join_type, condition := cnd,
             implicit := j.implicit } ] : List Step).length := by simp
  have hA := lt_of_lt_of_le h0 (optPush_length_ge _ q.whereCond
    fun w r => Step.filterStep r (stripIntegrationSeg ints w))
  have hB := lt_of_lt_of_le hA
    (gbPush_length_ge _ q.group_by q.having (q.targets.map stripAlias))
  have hC := lt_of_lt_of_le hB (optPush_length_ge _ q.order_by
    fun ob r => Step.orderByStep r ob)
  have hD := lt_of_lt_of_le hC (limPush_length_ge _ q.limit q.offset)
  rw [pushStep_getElem_lt _ _ 2 hD, limPush_getElem_lt _ _ _ 2 hC,
    optPush_getElem_lt _ _ _ 2 hB, gbPush_getElem_lt _ _ _ _ 2 hA,
    optPush_getElem_lt _ _ _ 2 h0]
  rfl

/-- C7: For every SELECT dispatched to the integration ×
non-time-series-predictor join rule, the first emitted step is a
FetchDataframeStep for the integration table whose embedded query
carries the entire original WHERE predicate (with the integration
segment stripped from the table identifier), and the last emitted step
is a ProjectStep with the original targets. -/
theorem C7_predictor_join_first_last
    {q : SelectQ} {ints : List String} {pns : String} {dns : Option String}
    {md : List (String × PredMeta)} {j : JoinNode}
    {lparts : List String} {lals : Option String}
    {rparts : List String} {rals : Option String}
    {pparts : List String} {intg : String} {tparts : List String}
    {plan : QueryPlan}
    (h1 : q.from_table = some (.joined j))
    (h2 : j.left = .ident lparts lals)
    (h3 : j.right = .ident rparts rals)
    (h4 : resolvePredictor pns dns rparts = some pparts)
    (h5 : resolveIntegration ints dns lparts = some (intg, tparts))
    (h6 : ∀ m, lookupMeta md pparts = some m → m.timeseries = false)
    (h8 : plan_query q ints pns dns md = .ok plan) :
    plan.steps[0]? = some (.fetchDataframe intg
      { targets := [Expr.star],
        from_table := some (.table (.ident tparts lals)),
        whereCond := q.whereCond, group_by := q.group_by,
        having := q.having, order_by := q.order_by,
        limit := q.limit, offset := q.offset }) ∧
    plan.steps.getLast? = some (.projectStep 2 q.targets) := by
  rw [plan_query_predictor_dispatch h1 h2 h3 h4 h5 h6] at h8
  obtain ⟨s, hs, rfl⟩ := except_map_ok h8
  obtain rfl := predictor_ok_inv hs
  exact ⟨rfl, rfl⟩

/-- C6: For every SELECT joining an integration table with a
non-time-series predictor, if the WHERE contains an identifier that
references the predictor side of the join (its leading segment is the
predictor's key, distinct from the table's key), plan_query raises a
planning error. -/
theorem C6_predictor_side_where_error
    {q : SelectQ} {ints : List String} {pns : String} {dns : Option String}
    {md : List (String × PredMeta)} {j : JoinNode}
    {lparts : List String} {lals : Option String}
    {rparts : List String} {rals : Option String}
    {pparts : List String} {intg : String} {tparts : List String}
    {w : Expr} {iparts : List String}
    (h1 : q.from_table = some (.joined j))
    (h2 : j.left = .ident lparts lals)
    (h3 : j.right = .ident rparts rals)
    (h4 : resolvePredictor pns dns rparts = some pparts)
    (h5 : resolveIntegration ints dns lparts = some (intg, tparts))
    (h6 : ∀ m, lookupMeta md pparts = some m → m.timeseries = false)
    (hw : q.whereCond = some w)
    (hmem : iparts ∈ exprIdents w)
    (hhead : iparts.headD "" = tableKey pparts rals)
    (hneq : tableKey pparts rals ≠ tableKey tparts lals) :
    ∃ e, plan_query q ints pns dns md = .error e := by
  rw [plan_query_predictor_dispatch h1 h2 h3 h4 h5 h6]
  have hbad : pjWhereOk (tableKey tparts lals) q.whereCond = false := by
    rw [hw]
    unfold pjWhereOk identsOk
    rw [List.all_eq_false]
    refine ⟨iparts, hmem, ?_⟩
    have hc : ([tableKey tparts lals] : List String).contains
        (iparts.headD "") = false := by
      rw [hhead]
      simpa using hneq
    simp only [hc, Bool.and_false]
    simp
  unfold plan_join_table_predictor
  rw [hbad]
  exact ⟨_, rfl⟩

/-- Is an expression a top-level AND? -/
def isAndE : Expr → Bool
  | .binop "and" _ _ _ => true
  | _ => false

/-- C8: For every time-series predictor join, if the WHERE nests an AND
inside the single permitted top-level AND of conjuncts, or contains a
conjunct that is neither a time predicate on the order-by column nor an
equality on the group-by column (a conjunct `classifyTsConj` rejects —
nested ANDs are always rejected by it), plan_query raises a planning
error. -/
theorem C8_ts_invalid_where_error
    {q : SelectQ} {ints : List String} {pns : String} {dns : Option String}
    {md : List (String × PredMeta)} {j : JoinNode}
    {lparts : List String} {lals : Option String}
    {rparts : List String} {rals : Option String}
    {pparts : List String} {intg : String} {tparts : List String}
    {m : PredMeta} {w : Expr}
    (h1 : q.from_table = some (.joined j))
    (h2 : j.left = .ident lparts lals)
    (h3 : j.right = .ident rparts rals)
    (h4 : resolvePredictor pns dns rparts = some pparts)
    (h5 : resolveIntegration ints dns lparts = some (intg, tparts))
    (h6 : lookupMeta md pparts = some m)
    (h7 : m.timeseries = true)
    (hw : q.whereCond = some w)
    (hbad :
      (∃ p a b, w = .binop "and" p a b ∧
        (classifyTsConj (tableKey tparts lals) m.order_by_column
            m.group_by_column a = none ∨
         classifyTsConj (tableKey tparts lals) m.order_by_column
            m.group_by_column b = none)) ∨
      (isAndE w = false ∧
        classifyTsConj (tableKey tparts lals) m.order_by_column
          m.group_by_column w = none)) :
    ∃ e, plan_query q ints pns dns md = .error e := by
  rw [plan_query_ts_dispatch h1 h2 h3 h4 h5 h6 h7]
  suffices hv : ∃ e, validateTsWhere (tableKey tparts lals)
      m.order_by_column m.group_by_column q.whereCond = .error e by
    obtain ⟨e, he⟩ := hv
    refine ⟨e, ?_⟩
    unfold plan_timeseries
    rw [he]
    rfl
  rw [hw]
  rcases hbad with ⟨p, a, b, rfl, hab⟩ | ⟨hand, hcl⟩
  · rcases hca : classifyTsConj (tableKey tparts lals) m.order_by_column
        m.group_by_column a with _ | ka <;>
      rcases hcb : classifyTsConj (tableKey tparts lals) m.order_by_column
          m.group_by_column b with _ | kb
    · exact ⟨"Invalid WHERE for a time-series predictor query",
        by simp [validateTsWhere, hca, hcb]⟩
    · exact ⟨"Invalid WHERE for a time-series predictor query",
        by simp [validateTsWhere, hca, hcb]⟩
    · exact ⟨"Invalid WHERE for a time-series predictor query",
        by simp [validateTsWhere, hca, hcb]⟩
    · rcases hab with h | h
      · rw [hca] at h
        cases h
      · rw [hcb] at h
        cases h
  · cases w with
    | binop op pp a b =>
      unfold validateTsWhere
      split
      · next heq => exact Option.noConfusion heq
      · next heq =>
        rw [Option.some.injEq] at heq
        rw [heq] at hand
        simp [isAndE] at hand
      · next e hne heq =>
        rw [Option.some.injEq] at heq
        subst heq
        rw [hcl]
        exact ⟨_, rfl⟩
    | ident parts als =>
      exact ⟨"Invalid WHERE for a time-series predictor query",
        by simp [validateTsWhere, hcl]⟩
    | const v =>
      exact ⟨"Invalid WHERE for a time-series predictor query",
        by simp [validateTsWhere, hcl]⟩
    | star =>
      exact ⟨"Invalid WHERE for a time-series predictor query",
        by simp [validateTsWhere, hcl]⟩
    | latest =>
      exact ⟨"Invalid WHERE for a time-series predictor query",
        by simp [validateTsWhere, hcl]⟩
    | between x lo hi =>
      exact ⟨"Invalid WHERE for a time-series predictor query",
        by simp [validateTsWhere, hcl]⟩

/-! ## Concrete instances (the repository's own test fixtures) -/

/-- The join of `mysql.data.ny_output AS ta` with `mindsdb.tp3 AS tb`
from `test_join_predictor_timeseries`. -/
def wTsJoin : JoinNode :=
  { left := .ident ["mysql", "data", "ny_output"] (some "ta"),
    right := .ident ["mindsdb", "tp3"] (some "tb"),
    join_type := some "join" }

def wTsMeta : List (String × PredMeta) :=
  [("tp3", { timeseries := true, order_by_column := "pickup_hour",
             group_by_column := "vendor_id", window := 10 })]

def wTsQuery : SelectQ :=
  { targets := [Expr.star], from_table := some (.joined wTsJoin) }

def wTsPlan : QueryPlan :=
  { steps :=
      [ .fetchDataframe "mysql"
          { targets := [.ident ["ta", "vendor_id"] (some "vendor_id")],
            from_table := some (.table (.ident ["data", "ny_output"] (some "ta"))),
            distinct := true },
        .mapReduceStep 0 "union" (.single
          { integration := "mysql",
            query := { targets := [Expr.star],
                       from_table := some (.table (.ident ["data", "ny_output"] (some "ta"))),
                       whereCond := some (bop "=" (.ident ["ta", "vendor_id"] none)
                         (.const (.str "$var"))),
                       order_by := some [{ field := .ident ["ta", "pickup_hour"] none,
                                           direction := "DESC" }] } }),
        .applyTimeseriesPredictor "mindsdb" (.ident ["tp3"] (some "tb")) 1 none,
        .joinStep 2 1 { left := .ident ["result_2"] (some "tb"),
                        right := .ident ["result_1"] (some "ta"),
                        join_type := some "left join" },
        .projectStep 3 [Expr.star] ] }

/-- Witness for C1 at the `test_join_predictor_timeseries` fixture. -/
theorem C1_ts_plan_step_shape_witness :
    ∃ w tmpl tf,
      wTsPlan.steps[0]? = some (.fetchDataframe "mysql"
          { targets := [.ident ["ta", "vendor_id"] (some "vendor_id")],
            from_table := some (.table (.ident ["data", "ny_output"] (some "ta"))),
            whereCond := w, distinct := true }) ∧
      wTsPlan.steps[1]? = some (.mapReduceStep 0 "union" tmpl) ∧
      wTsPlan.steps[2]? = some (.applyTimeseriesPredictor "mindsdb"
          (.ident ["tp3"] (some "tb")) 1 tf) ∧
      wTsPlan.steps[3]? = some (.joinStep 2 1
          { left := .ident ["result_2"] (some "tb"),
            right := .ident ["result_1"] (some "ta"),
            join_type := some JoinType.left_join }) :=
  @C1_ts_plan_step_shape wTsQuery ["mysql"] "mindsdb" none wTsMeta wTsJoin
    ["mysql", "data", "ny_output"] (some "ta") ["mindsdb", "tp3"] (some "tb")
    ["tp3"] "mysql" ["data", "ny_output"]
    { timeseries := true, order_by_column := "pickup_hour",
      group_by_column := "vendor_id", window := 10 } wTsPlan
    rfl rfl rfl (by decide) (by decide) (by decide) (by decide) (by decide)

/-- Witness for C10 at the same fixture, checking the final JoinStep. -/
theorem C10_result_handles_bounded_witness :
    stepRefsOk (wTsPlan.steps.get ⟨3, by decide⟩) 3 = true :=
  C10_result_handles_bounded wTsQuery ["mysql"] "mindsdb" none wTsMeta
    wTsPlan (by decide) 3 (by decide)

/-- The `ta.pickup_hour > 10 AND ta.vendor_id = 1` query of
`test_join_predictor_timeseries_concrete_date_greater`. -/
def wTsGtQuery : SelectQ :=
  { targets := [Expr.star], from_table := some (.joined wTsJoin),
    whereCond := some (bop "and"
      (bop ">" (.ident ["ta", "pickup_hour"] none) (.const (.int 10)))
      (bop "=" (.ident ["ta", "vendor_id"] none) (.const (.int 1)))) }

def wTsGtPlan : QueryPlan :=
  { steps :=
      [ .fetchDataframe "mysql"
          { targets := [.ident ["ta", "vendor_id"] (some "vendor_id")],
            from_table := some (.table (.ident ["data", "ny_output"] (some "ta"))),
            whereCond := some (bop "=" (.ident ["ta", "vendor_id"] none) (.const (.int 1))),
            distinct := true },
        .mapReduceStep 0 "union" (.multi "union"
          [ { integration := "mysql",
              query := { targets := [Expr.star],
                         from_table := some (.table (.ident ["data", "ny_output"] (some "ta"))),
                         whereCond := some (bop "and"
                           (bop "and"
                             (bop "<=" (.ident ["ta", "pickup_hour"] none) (.const (.int 10)))
                             (bop "=" (.ident ["ta", "vendor_id"] none) (.const (.int 1))))
                           (bop "=" (.ident ["ta", "vendor_id"] none) (.const (.str "$var")))),
                         order_by := some [{ field := .ident ["ta", "pickup_hour"] none,
                                             direction := "DESC" }],
                         limit := some (.const (.int 10)) } },
            { integration := "mysql",
              query := { targets := [Expr.star],
                         from_table := some (.table (.ident ["data", "ny_output"] (some "ta"))),
                         whereCond := some (bop "and"
                           (bop "and"
                             (bop ">" (.ident ["ta", "pickup_hour"] none) (.const (.int 10)))
                             (bop "=" (.ident ["ta", "vendor_id"] none) (.const (.int 1))))
                           (bop "=" (.ident ["ta", "vendor_id"] none) (.const (.str "$var")))),
                         order_by := some [{ field := .ident ["ta", "pickup_hour"] none,
                                             direction := "DESC" }] } } ]),
        .applyTimeseriesPredictor "mindsdb" (.ident ["tp3"] (some "tb")) 1
          (some (bop ">" (.ident ["ta", "pickup_hour"] none) (.const (.int 10)))),
        .joinStep 2 1 { left := .ident ["result_2"] (some "tb"),
                        right := .ident ["result_1"] (some "ta"),
                        join_type := some "left join" },
        .projectStep 3 [Expr.star] ] }

/-- Witness for C2 at the concrete-date-greater fixture. -/
theorem C2_ts_greater_template_witness :
    wTsGtPlan.steps[1]? = some (.mapReduceStep 0 "union" (.multi "union"
      [ { integration := "mysql",
          query :=
            { targets := [Expr.star],
              from_table := some (.table (.ident ["data", "ny_output"] (some "ta"))),
              whereCond := some (Expr.binop "and" false
                (Expr.binop "and" false
                  (Expr.binop (if ">" = ">" then "<=" else "<") false
                    (.ident ["ta", "pickup_hour"] none) (.const (.int 10)))
                  (bop "=" (.ident ["ta", "vendor_id"] none) (.const (.int 1))))
                (varFilter "ta" "vendor_id")),
              order_by := some (tsOrderBy "ta" "pickup_hour"),
              limit := some (.const (.int 10)) } },
        { integration := "mysql",
          query :=
            { targets := [Expr.star],
              from_table := some (.table (.ident ["data", "ny_output"] (some "ta"))),
              whereCond := some (Expr.binop "and" false
                (Expr.binop "and" false
                  (bop ">" (.ident ["ta", "pickup_hour"] none) (.const (.int 10)))
                  (bop "=" (.ident ["ta", "vendor_id"] none) (.const (.int 1))))
                (varFilter "ta" "vendor_id")),
              order_by := some (tsOrderBy "ta" "pickup_hour"),
              limit := none } } ])) :=
  @C2_ts_greater_template wTsGtQuery ["mysql"] "mindsdb" none wTsMeta wTsJoin
    ["mysql", "data", "ny_output"] (some "ta") ["mindsdb", "tp3"] (some "tb")
    ["tp3"] "mysql" ["data", "ny_output"]
    { timeseries := true, order_by_column := "pickup_hour",
      group_by_column := "vendor_id", window := 10 } wTsGtPlan
    (bop ">" (.ident ["ta", "pickup_hour"] none) (.const (.int 10)))
    (bop "=" (.ident ["ta", "vendor_id"] none) (.const (.int 1)))
    ">" (.int 10)
    rfl rfl rfl (by decide) (by decide) (by decide) (by decide) rfl rfl
    (Or.inl rfl) (by decide) (by decide)

/-- The `ta.pickup_hour > LATEST AND ta.vendor_id = 1` query of
`test_join_predictor_timeseries_latest` (window 5). -/
def wTsLatestQuery : SelectQ :=
  { targets := [Expr.star],
    from_table := some (.joined
      { left := .ident ["mysql", "data", "ny_output"] (some "ta"),
        right := .ident ["mindsdb", "tp3"] (some "tb"),
        implicit := true }),
    whereCond := some (bop "and"
      (bop ">" (.ident ["ta", "pickup_hour"] none) .latest)
      (bop "=" (.ident ["ta", "vendor_id"] none) (.const (.int 1)))) }

def wTsMeta5 : List (String × PredMeta) :=
  [("tp3", { timeseries := true, order_by_column := "pickup_hour",
             group_by_column := "vendor_id", window := 5 })]

def wTsLatestPlan : QueryPlan :=
  { steps :=
      [ .fetchDataframe "mysql"
          { targets := [.ident ["ta", "vendor_id"] (some "vendor_id")],
            from_table := some (.table (.ident ["data", "ny_output"] (some "ta"))),
            whereCond := some (bop "=" (.ident ["ta", "vendor_id"] none) (.const (.int 1))),
            distinct := true },
        .mapReduceStep 0 "union" (.single
          { integration := "mysql",
            query := { targets := [Expr.star],
                       from_table := some (.table (.ident ["data", "ny_output"] (some "ta"))),
                       whereCond := some (bop "and"
                         (bop "=" (.ident ["ta", "vendor_id"] none) (.const (.int 1)))
                         (bop "=" (.ident ["ta", "vendor_id"] none) (.const (.str "$var")))),
                       order_by := some [{ field := .ident ["ta", "pickup_hour"] none,
                                           direction := "DESC" }],
                       limit := some (.const (.int 5)) } }),
        .applyTimeseriesPredictor "mindsdb" (.ident ["tp3"] (some "tb")) 1
          (some (bop ">" (.ident ["ta", "pickup_hour"] none) .latest)),
        .joinStep 2 1 { left := .ident ["result_2"] (some "tb"),
                        right := .ident ["result_1"] (some "ta"),
                        join_type := some "left join" },
        .projectStep 3 [Expr.star] ] }

/-- Witness for C3 at the Latest fixture. -/
theorem C3_ts_latest_template_witness :
    wTsLatestPlan.steps[1]? = some (.mapReduceStep 0 "union" (.single
      { integration := "mysql",
        query :=
          { targets := [Expr.star],
            from_table := some (.table (.ident ["data", "ny_output"] (some "ta"))),
            whereCond := some (Expr.binop "and" false
              (bop "=" (.ident ["ta", "vendor_id"] none) (.const (.int 1)))
              (varFilter "ta" "vendor_id")),
            order_by := some (tsOrderBy "ta" "pickup_hour"),
            limit := some (.const (.int 5)) } })) ∧
    wTsLatestPlan.steps[2]? = some (.applyTimeseriesPredictor "mindsdb"
      (.ident ["tp3"] (some "tb")) 1
      (some (.binop ">" false (.ident ["ta", "pickup_hour"] none) .latest))) :=
  @C3_ts_latest_template wTsLatestQuery ["mysql"] "mindsdb" none wTsMeta5
    { left := .ident ["mysql", "data", "ny_output"] (some "ta"),
      right := .ident ["mindsdb", "tp3"] (some "tb"), implicit := true }
    ["mysql", "data", "ny_output"] (some "ta") ["mindsdb", "tp3"] (some "tb")
    ["tp3"] "mysql" ["data", "ny_output"]
    { timeseries := true, order_by_column := "pickup_hour",
      group_by_column := "vendor_id", window := 5 } wTsLatestPlan
    (bop ">" (.ident ["ta", "pickup_hour"] none) .latest)
    (bop "=" (.ident ["ta", "vendor_id"] none) (.const (.int 1)))
    rfl rfl rfl (by decide) (by decide) (by decide) (by decide) rfl rfl
    (by decide) (by decide)

/-- The two-integration-table join of `test_join_tables_plan`. -/
def wTwoTablesJoin : JoinNode :=
  { left := .ident ["int", "tab1"] none,
    right := .ident ["int", "tab2"] none,
    join_type := some "inner join",
    condition := some (bop "=" (.ident ["tab1", "column1"] none)
      (.ident ["tab2", "column1"] none)) }

def wTwoTablesQuery : SelectQ :=
  { targets := [.ident ["tab1", "column1"] none, .ident ["tab2", "column1"] none,
                .ident ["tab2", "column2"] none],
    from_table := some (.joined wTwoTablesJoin) }

def wTwoTablesPlan : QueryPlan :=
  { steps :=
      [ .fetchDataframe "int"
          { targets := [Expr.star], from_table := some (.table (.ident ["tab1"] none)) },
        .fetchDataframe "int"
          { targets := [Expr.star], from_table := some (.table (.ident ["tab2"] none)) },
        .joinStep 0 1
          { left := .ident ["tab1"] none, right := .ident ["tab2"] none,
            join_type := some "inner join",
            condition := some (bop "=" (.ident ["tab1", "column1"] none)
              (.ident ["tab2", "column1"] none)) },
        .projectStep 2 [.ident ["tab1", "column1"] none,
          .ident ["tab2", "column1"] none, .ident ["tab2", "column2"] none] ] }

/-- Witness for the amended C5 at the `test_join_tables_plan` fixture. -/
theorem C5_two_table_joinstep_witness :
    ∃ cnd,
      wTwoTablesPlan.steps[2]? = some (.joinStep 0 1
        { left := .ident ["tab1"] none, right := .ident ["tab2"] none,
          join_type := some "inner join", condition := cnd,
          implicit := false }) :=
  @C5_two_table_joinstep wTwoTablesQuery ["int"] "mindsdb" none []
    wTwoTablesJoin ["int", "tab1"] none ["int", "tab2"] none
    "int" ["tab1"] "int" ["tab2"] wTwoTablesPlan
    rfl rfl rfl (by decide) (by decide) (by decide) (by decide) (by decide)

/-- C5 (counterexample): at the `test_join_tables_plan` fixture the
emitted JoinStep's `query.left` and `query.right` are the bare stripped
table identifiers `tab1` / `tab2`, not `result_0` / `result_1` — the
claim as stated is false for table×table joins. -/
theorem C5_counterexample :
    plan_query wTwoTablesQuery ["int"] "mindsdb" none [] = .ok wTwoTablesPlan ∧
    wTwoTablesPlan.steps[2]? = some (.joinStep 0 1
      { left := .ident ["tab1"] none, right := .ident ["tab2"] none,
        join_type := some "inner join",
        condition := some (bop "=" (.ident ["tab1", "column1"] none)
          (.ident ["tab2", "column1"] none)) }) ∧
    (∀ al : Option String, Expr.ident ["tab1"] none ≠ .ident ["result_0"] al) ∧
    (∀ al : Option String, Expr.ident ["tab2"] none ≠ .ident ["result_1"] al) := by
  refine ⟨by decide, by decide, ?_, ?_⟩ <;> (intro al; simp)

/-- The predictor-side filter of
`test_join_predictor_error_when_filtering_on_predictions`. -/
def wPredFilterQuery : SelectQ :=
  { targets := [.ident ["rental_price_confidence"] none],
    from_table := some (.joined
      { left := .ident ["postgres_90", "test_data", "home_rentals"] (some "ta"),
        right := .ident ["mindsdb", "hrp3"] (some "tb"),
        join_type := some "inner join", implicit := true }),
    whereCond := some (bop "and"
      (bop ">" (.ident ["ta", "sqft"] none) (.const (.int 1000)))
      (bop ">" (.ident ["tb", "rental_price_confidence"] none)
        (.const (.flt (1 / 2))))),
    limit := some (.const (.int 5)) }

/-- Witness for C6 at the filtering-on-predictions fixture. -/
theorem C6_predictor_side_where_error_witness :
    ∃ e, plan_query wPredFilterQuery ["postgres_90"] "mindsdb" none [] =
      .error e :=
  @C6_predictor_side_where_error wPredFilterQuery ["postgres_90"] "mindsdb"
    none []
    { left := .ident ["postgres_90", "test_data", "home_rentals"] (some "ta"),
      right := .ident ["mindsdb", "hrp3"] (some "tb"),
      join_type := some "inner join", implicit := true }
    ["postgres_90", "test_data", "home_rentals"] (some "ta")
    ["mindsdb", "hrp3"] (some "tb") ["hrp3"] "postgres_90"
    ["test_data", "home_rentals"]
    (bop "and"
      (bop ">" (.ident ["ta", "sqft"] none) (.const (.int 1000)))
      (bop ">" (.ident ["tb", "rental_price_confidence"] none)
        (.const (.flt (1 / 2)))))
    ["tb", "rental_price_confidence"]
    rfl rfl rfl (by decide) (by decide)
    (fun m hm => Option.noConfusion hm) rfl (by decide) (by decide)
    (by decide)

/-- The WHERE-carrying predictor join of `test_join_predictor_plan_where`. -/
def wPredWhereQuery : SelectQ :=
  { targets := [.ident ["tab", "column1"] none, .ident ["pred", "predicted"] none],
    from_table := some (.joined
      { left := .ident ["int", "tab"] none,
        right := .ident ["mindsdb", "pred"] none,
        join_type := some "inner join", implicit := true }),
    whereCond := some (bop "and"
      (bop "=" (.ident ["tab", "product_id"] none) (.const (.str "x")))
      (.between (.ident ["tab", "time"] none) (.const (.str "2021-01-01"))
        (.const (.str "2021-01-31")))) }

def wPredWherePlan : QueryPlan :=
  { steps :=
      [ .fetchDataframe "int"
          { targets := [Expr.star], from_table := some (.table (.ident ["tab"] none)),
            whereCond := wPredWhereQuery.whereCond },
        .applyPredictor "mindsdb" (.ident ["pred"] none) 0,
        .joinStep 0 1
          { left := .ident ["result_0"] (some "tab"),
            right := .ident ["result_1"] (some "pred"),
            join_type := some "inner join" },
        .projectStep 2 [.ident ["tab", "column1"] none,
          .ident ["pred", "predicted"] none] ] }

/-- Witness for C7 at the `test_join_predictor_plan_where` fixture. -/
theorem C7_predictor_join_first_last_witness :
    wPredWherePlan.steps[0]? = some (.fetchDataframe "int"
      { targets := [Expr.star],
        from_table := some (.table (.ident ["tab"] none)),
        whereCond := wPredWhereQuery.whereCond }) ∧
    wPredWherePlan.steps.getLast? = some (.projectStep 2
      [.ident ["tab", "column1"] none, .ident ["pred", "predicted"] none]) :=
  @C7_predictor_join_first_last wPredWhereQuery ["int"] "mindsdb" none []
    { left := .ident ["int", "tab"] none,
      right := .ident ["mindsdb", "pred"] none,
      join_type := some "inner join", implicit := true }
    ["int", "tab"] none ["mindsdb", "pred"] none ["pred"] "int" ["tab"]
    wPredWherePlan
    rfl rfl rfl (by decide) (by decide)
    (fun m hm => Option.noConfusion hm) (by decide)

/-- The nested-AND WHERE of
`test_join_predictor_timeseries_error_on_nested_where`. -/
def wTsNestedQuery : SelectQ :=
  { targets := [.ident ["pred", "time"] none, .ident ["pred", "price"] none],
    from_table := some (.joined
      { left := .ident ["int", "tab1"] none,
        right := .ident ["mindsdb", "pred"] none, implicit := true }),
    whereCond := some (bop "and"
      (bop "and" (bop ">" (.ident ["tab1", "time"] none) .latest)
                 (bop ">" (.ident ["tab1", "time"] none) .latest))
      (bop "=" (.ident ["tab1", "asset"] none) (.const (.str "bitcoin")))) }

def wTsNestedMeta : List (String × PredMeta) :=
  [("pred", { timeseries := true, order_by_column := "time",
              group_by_column := "asset", window := 5 })]

/-- Witness for C8 at the nested-WHERE fixture. -/
theorem C8_ts_invalid_where_error_witness :
    ∃ e, plan_query wTsNestedQuery ["int"] "mindsdb" none wTsNestedMeta =
      .error e :=
  @C8_ts_invalid_where_error wTsNestedQuery ["int"] "mindsdb" none
    wTsNestedMeta
    { left := .ident ["int", "tab1"] none,
      right := .ident ["mindsdb", "pred"] none, implicit := true }
    ["int", "tab1"] none ["mindsdb", "pred"] none ["pred"] "int" ["tab1"]
    { timeseries := true, order_by_column := "time",
      group_by_column := "asset", window := 5 }
    ((wTsNestedQuery.whereCond).getD Expr.star)
    rfl rfl rfl (by decide) (by decide) (by decide) (by decide) (by decide)
    (Or.inl ⟨false,
      bop "and" (bop ">" (.ident ["tab1", "time"] none) .latest)
        (bop ">" (.ident ["tab1", "time"] none) .latest),
      bop "=" (.ident ["tab1", "asset"] none) (.const (.str "bitcoin")),
      rfl, Or.inl (by decide)⟩)

/-! ## Parser clause ordering (§4.2)

The parser implementation is not part of the snapshot.  The clause
discipline of the SELECT grammar is modelled at the clause-sequence
level: a SELECT body is a sequence of the seven optional clause
sections, attached left to right onto the partially built Select. -/

inductive Clause where
  | fromC
  | whereC
  | groupByC
  | havingC
  | orderByC
  | limitC
  | offsetC
deriving DecidableEq, Repr

/-- Canonical precedence of the seven clauses (§4.2). -/
def Clause.rank : Clause → Nat
  | .fromC => 0
  | .whereC => 1
  | .groupByC => 2
  | .havingC => 3
  | .orderByC => 4
  | .limitC => 5
  | .offsetC => 6

def Clause.keyword : Clause → String
  | .fromC => "FROM"
  | .whereC => "WHERE"
  | .groupByC => "GROUP BY"
  | .havingC => "HAVING"
  | .orderByC => "ORDER BY"
  | .limitC => "LIMIT"
  | .offsetC => "OFFSET"

/-- The canonical clause order
`FROM WHERE GROUP BY HAVING ORDER BY LIMIT OFFSET`. -/
def canonicalClauses : List Clause :=
  [.fromC, .whereC, .groupByC, .havingC, .orderByC, .limitC, .offsetC]

/-- Modelled from the spec: attaching one clause section onto the
partially built Select (§4.2).  If a clause of later precedence is
already attached, parsing fails with "<clause> must go after <later>";
a HAVING without GROUP BY fails with "HAVING requires GROUP BY". -/
def attachClause (seen : List Clause) (c : Clause) :
    Except String (List Clause) :=
  match seen.find? fun c' => decide (c.rank < c'.rank) with
  | some c' => .error (c.keyword ++ " must go after " ++ c'.keyword)
  | none =>
    if c = .havingC ∧ .groupByC ∉ seen then
      .error (c.keyword ++ " requires " ++ Clause.keyword .groupByC)
    else .ok (c :: seen)

/-- Modelled from the spec: left-to-right attachment of the clause
sections of a SELECT. -/
def checkClauseOrder (seen : List Clause) : List Clause →
    Except String Unit
  | [] => .ok ()
  | c :: rest =>
    match attachClause seen c with
    | .error e => .error e
    | .ok seen' => checkClauseOrder seen' rest

def parseClauseSeq (l : List Clause) : Except String Unit :=
  checkClauseOrder [] l

theorem attachClause_error_shape {seen : List Clause} {c : Clause}
    {e : String} (h : attachClause seen c = .error e) :
    ∃ a b, e = a ++ " must go after " ++ b ∨ e = a ++ " requires " ++ b := by
  unfold attachClause at h
  split at h
  · next c' _ =>
    rw [Except.error.injEq] at h
    exact ⟨c.keyword, c'.keyword, Or.inl h.symm⟩
  · split at h
    · rw [Except.error.injEq] at h
      exact ⟨c.keyword, Clause.keyword .groupByC, Or.inr h.symm⟩
    · cases h

theorem checkClauseOrder_error_shape :
    ∀ (l seen : List Clause) (e : String),
      checkClauseOrder seen l = .error e →
      ∃ a b, e = a ++ " must go after " ++ b ∨
        e = a ++ " requires " ++ b := by
  intro l
  induction l with
  | nil => intro seen e h; cases h
  | cons c rest ih =>
    intro seen e h
    unfold checkClauseOrder at h
    split at h
    · next e' he =>
      rw [Except.error.injEq] at h
      subst h
      exact attachClause_error_shape he
    · next seen' _ => exact ih seen' e h

theorem attachClause_ok_inv {seen : List Clause} {c : Clause}
    {seen' : List Clause} (h : attachClause seen c = .ok seen') :
    (∀ c' ∈ seen, Clause.rank c' ≤ c.rank) ∧ seen' = c :: seen := by
  unfold attachClause at h
  split at h
  · cases h
  · next hf =>
    split at h
    · cases h
    · rw [Except.ok.injEq] at h
      refine ⟨?_, h.symm⟩
      intro c' hc'
      have := List.find?_eq_none.mp hf c' hc'
      simpa using Nat.le_of_not_lt (by simpa using this)

theorem checkClauseOrder_ok_sorted :
    ∀ (l seen : List Clause), checkClauseOrder seen l = .ok () →
      (∀ d ∈ l, ∀ c' ∈ seen, Clause.rank c' ≤ d.rank) ∧
        l.Sorted fun a b => a.rank ≤ b.rank := by
  intro l
  induction l with
  | nil => intro seen _; exact ⟨by simp, List.sorted_nil⟩
  | cons c rest ih =>
    intro seen h
    unfold checkClauseOrder at h
    split at h
    · cases h
    · next seen' hat =>
      obtain ⟨hseen, rfl⟩ := attachClause_ok_inv hat
      obtain ⟨hrest, hsorted⟩ := ih (c :: seen) h
      constructor
      · intro d hd c' hc'
        rcases List.mem_cons.mp hd with rfl | hd'
        · exact hseen c' hc'
        · exact hrest d hd' c' (List.mem_cons_of_mem c hc')
      · exact List.Pairwise.cons
          (fun d hd => hrest d hd c (List.mem_cons_self c seen)) hsorted

instance : IsAntisymm Clause fun a b => a.rank ≤ b.rank :=
  ⟨fun a b h1 h2 => by cases a <;> cases b <;> simp_all [Clause.rank]⟩

/-- C4: For every arrangement of the seven SELECT clause sections
(FROM, WHERE, GROUP BY, HAVING, ORDER BY, LIMIT, OFFSET) that is not
the canonical order, parsing fails with a message containing
"must go after" or "requires". -/
theorem C4_clause_order_error (perm : List Clause)
    (hperm : perm.Perm canonicalClauses)
    (hne : perm ≠ canonicalClauses) :
    ∃ a b, parseClauseSeq perm = .error (a ++ " must go after " ++ b) ∨
      parseClauseSeq perm = .error (a ++ " requires " ++ b) := by
  cases hres : parseClauseSeq perm with
  | ok u =>
    exfalso
    apply hne
    have hsorted := (checkClauseOrder_ok_sorted perm [] hres).2
    have hcan : canonicalClauses.Sorted (fun a b => a.rank ≤ b.rank) := by
      decide
    exact List.eq_of_perm_of_sorted hperm hsorted hcan
  | error e =>
    obtain ⟨a, b, hab⟩ := checkClauseOrder_error_shape perm [] e hres
    rcases hab with h | h
    · exact ⟨a, b, Or.inl (by rw [h])⟩
    · exact ⟨a, b, Or.inr (by rw [h])⟩

/-- Witness for C4 at the arrangement that puts WHERE before FROM. -/
theorem C4_clause_order_error_witness :
    ∃ a b,
      parseClauseSeq [.whereC, .fromC, .groupByC, .havingC, .orderByC,
        .limitC, .offsetC] = .error (a ++ " must go after " ++ b) ∨
      parseClauseSeq [.whereC, .fromC, .groupByC, .havingC, .orderByC,
        .limitC, .offsetC] = .error (a ++ " requires " ++ b) :=
  C4_clause_order_error
    [.whereC, .fromC, .groupByC, .havingC, .orderByC, .limitC, .offsetC]
    (by decide) (by decide)

/-! ## Token-level SELECT grammar and renderer (§4.2, §6)

The parser and the `to_string` renderer are not part of the snapshot.
They are modelled from the spec at the token level (the lexer is a
separate component, specified in §4.1): `renderSelect` maps a SELECT AST
to the token stream its SQL text produces, and `parseSelectToks` is a
recursive-descent parser for the SELECT grammar of §4.2 over the same
token type, with the clause order, the WHERE-must-be-boolean check, the
WHERE-requires-FROM check and integer-only LIMIT/OFFSET operands.
Operator precedence follows §4.1's operator set: OR < AND < comparisons
< additive < multiplicative, all left-associative, with parenthesised
grouping recorded in the `parens` flag of `binop` nodes. -/

inductive Tok where
  | kwSelect
  | kwDistinct
  | kwFrom
  | kwWhere
  | kwGroupBy
  | kwHaving
  | kwOrderBy
  | kwLimit
  | kwOffset
  | kwAsc
  | kwDesc
  | kwAs
  | kwAnd
  | kwOr
  | comma
  | dot
  | lparen
  | rparen
  | star
  | tid (s : String)
  | tint (n : Int)
  | tstr (s : String)
  | tEq
  | tNe
  | tLt
  | tGt
  | tLe
  | tGe
  | plus
  | minus
  | slash
deriving DecidableEq, Repr

/-- Operator token classification: precedence level and operator name.
The `star` token doubles as the multiplication symbol. -/
def tokOp : Tok → Option (Nat × String)
  | .kwOr => some (0, "or")
  | .kwAnd => some (1, "and")
  | .tEq => some (2, "=")
  | .tNe => some (2, "!=")
  | .tLt => some (2, "<")
  | .tGt => some (2, ">")
  | .tLe => some (2, "<=")
  | .tGe => some (2, ">=")
  | .plus => some (3, "+")
  | .minus => some (3, "-")
  | .star => some (4, "*")
  | .slash => some (4, "/")
  | _ => none

/-- Mark an expression as parenthesised (binary operations record the
flag; atoms drop redundant parentheses). -/
def setParens : Expr → Expr
  | .binop op _ a b => .binop op true a b
  | e => e

/-- Dotted-identifier continuation: consumes `.seg` repetitions. -/
def parseDots (acc : List String) : List Tok → List String × List Tok
  | .dot :: .tid s :: rest => parseDots (acc ++ [s]) rest
  | ts => (acc, ts)

mutual

/-- Primary expressions: dotted identifier, integer or string constant,
parenthesised expression. -/
def parseP : Nat → List Tok → Option (Expr × List Tok)
  | 0, _ => none
  | _ + 1, .tid s :: rest =>
    some (.ident (parseDots [s] rest).1 none, (parseDots [s] rest).2)
  | _ + 1, .tint n :: rest => some (.const (.int n), rest)
  | _ + 1, .tstr s :: rest => some (.const (.str s), rest)
  | fuel + 1, .lparen :: rest =>
    match parseL fuel 5 rest with
    | some (e, .rparen :: rest2) => some (setParens e, rest2)
    | _ => none
  | _ + 1, _ => none

/-- Leveled expression parsing; `down` counts the levels left before
primary (level = 5 - down). -/
def parseL : Nat → Nat → List Tok → Option (Expr × List Tok)
  | 0, _, _ => none
  | fuel + 1, 0, ts => parseP fuel ts
  | fuel + 1, down + 1, ts =>
    match parseL fuel down ts with
    | none => none
    | some (e, rest) => parseChain fuel (down + 1) e rest

/-- Left-associative operator chain at level `5 - down`. -/
def parseChain : Nat → Nat → Expr → List Tok → Option (Expr × List Tok)
  | 0, _, _, _ => none
  | fuel + 1, down, acc, ts =>
    match ts with
    | t :: rest =>
      match tokOp t with
      | some (l, op) =>
        if l = 5 - down then
          match down, parseL fuel (down - 1) rest with
          | _ + 1, some (e2, rest2) =>
            parseChain fuel down (.binop op false acc e2) rest2
          | _, _ => none
        else some (acc, ts)
      | none => some (acc, ts)
    | [] => some (acc, ts)

end

end MindsdbSql
